import Mathlib

/-!
Shallow embedding of `src/cmd.rs` from the `ceph-rust` crate.

The file models the command-marshalling layer of the crate: the wire
vocabulary enumerations with their Display / AsRef / serde token maps, the
command descriptors built by each administrative operation, and the
dispatch-and-parse control flow of every operation.

The external transport (`ceph_mon_command_without_data`, defined in the
crate's `ceph.rs`, outside the verified sources) is modelled as a function
parameter from a command descriptor to either a transport-level error or the
dual text channel `(Option String, Option String)` (primary payload,
secondary diagnostic text).  Each operation returns, besides its result, the
list of command descriptors it passed to the transport, so that "the
transport was never invoked" is expressible as that list being empty.
The opaque cluster handle (`rados_t`) carries no information used by this
layer and is absorbed into the transport parameter.

JSON decoding of structured replies is performed in the source by the
external `serde_json` crate; operations that decode a structured reply are
therefore parameterized by the decoding function for their response model.
-/

namespace CephRust

/-- A `serde_json::Value` as built by the `json!` descriptors of `cmd.rs`:
strings, unsigned integers, floating point numbers, arrays and objects. -/
inductive Json where
  | str : String → Json
  | num : Nat → Json
  | fnum : Float → Json
  | arr : List Json → Json
  | obj : List (String × Json) → Json

/-- Modelled from the spec: the crate's error type lives in `error.rs`, which
is not among the verified sources.  Only the shapes `cmd.rs` produces are
modelled: a textual error (`RadosError::Error(String)`) and the conversion of
an integer-parse failure (`From<ParseIntError>`), carrying the offending
string. -/
inductive RadosError where
  | Error : String → RadosError
  | ParseIntError : String → RadosError
  deriving DecidableEq

/-- The crate's `RadosResult` alias. -/
abbrev RadosResult (α : Type) := Except RadosError α

/-- The external transport `ceph_mon_command_without_data`: a command
descriptor goes in, a transport-level error or the dual text channel
(primary payload, secondary status text) comes out. -/
abbrev Transport := Json → Except RadosError (Option String × Option String)

/-- Characters of a string up to (excluding) the first newline. -/
def takeUntilNewline : List Char → List Char
  | [] => []
  | c :: rest => if c = '\n' then [] else c :: takeUntilNewline rest

/-- Drop one trailing carriage return, as Rust's `str::lines` does. -/
def stripCR (l : List Char) : List Char :=
  if l.getLast? = some '\r' then l.dropLast else l

/-- Rust's `s.lines().next()`: `none` exactly on the empty string, otherwise
the text before the first newline with a trailing carriage return removed.
This is the only use `cmd.rs` makes of the `lines` iterator. -/
def firstLine? (s : String) : Option String :=
  if s.data.isEmpty then none
  else some (String.mk (stripCR (takeUntilNewline s.data)))

/-- Escapes of Rust's `Debug` formatting for the characters that occur in
this development: quote, backslash, newline, carriage return, tab. -/
def rustEscapeChar (c : Char) : List Char :=
  if c = '"' then ['\\', '"']
  else if c = '\\' then ['\\', '\\']
  else if c = '\n' then ['\\', 'n']
  else if c = '\r' then ['\\', 'r']
  else if c = '\t' then ['\\', 't']
  else [c]

/-- Rust's `format!` rendering of a `String` with the debug specifier:
the text quoted and escaped. -/
def rustDebugStr (s : String) : String :=
  String.mk ('"' :: (s.data.flatMap rustEscapeChar) ++ ['"'])

/-- Rust's debug rendering of an `Option<String>`. -/
def rustDebugOptStr : Option String → String
  | none => "None"
  | some s => "Some(" ++ rustDebugStr s ++ ")"

/-- Rust's debug rendering of the dual text channel tuple
`(Option<String>, Option<String>)`. -/
def rustDebugPair (p : Option String × Option String) : String :=
  "(" ++ rustDebugOptStr p.1 ++ ", " ++ rustDebugOptStr p.2 ++ ")"

/-- Value of a digit string read in base ten. -/
def decimalValue (l : List Char) : Nat :=
  l.foldl (fun acc c => acc * 10 + (c.toNat - 48)) 0

/-- Rust's `u64::from_str`: an optional leading plus sign, then one or more
ASCII digits, value below `2 ^ 64`; anything else is a parse error, which
`cmd.rs` propagates through the crate's error conversion. -/
def u64_from_str (s : String) : Except RadosError Nat :=
  let digits : List Char :=
    match s.data with
    | '+' :: rest => rest
    | l => l
  if digits.isEmpty || !(digits.all Char.isDigit) then
    Except.error (RadosError.ParseIntError s)
  else if decimalValue digits < 2 ^ 64 then
    Except.ok (decimalValue digits)
  else
    Except.error (RadosError.ParseIntError s)

/-- Field lookup in a JSON object descriptor. -/
def lookupField (j : Json) (key : String) : Option Json :=
  match j with
  | Json.obj fields => (fields.find? (fun p => p.1 == key)).map Prod.snd
  | _ => none

/-- Whether a JSON object descriptor carries a field of the given name. -/
def hasKey (j : Json) (key : String) : Bool :=
  match j with
  | Json.obj fields => fields.any (fun p => p.1 == key)
  | _ => false

/-- Cluster-wide OSD flags (`enum OsdOption` of `cmd.rs`). -/
inductive OsdOption where
  | Full
  | Pause
  | NoUp
  | NoDown
  | NoOut
  | NoIn
  | NoBackfill
  | NoRebalance
  | NoRecover
  | NoScrub
  | NoDeepScrub
  | NoTierAgent
  | SortBitwise
  | RecoveryDeletes
  | RequireJewelOsds
  | RequireKrakenOsds
  deriving DecidableEq, Fintype

/-- The serde wire token of each `OsdOption` variant, from the
`serde(rename = ...)` attributes; this is what the `json!` descriptors embed. -/
def OsdOption.serdeToken : OsdOption → String
  | .Full => "full"
  | .Pause => "pause"
  | .NoUp => "noup"
  | .NoDown => "nodown"
  | .NoOut => "noout"
  | .NoIn => "noin"
  | .NoBackfill => "nobackfill"
  | .NoRebalance => "norebalance"
  | .NoRecover => "norecover"
  | .NoScrub => "noscrub"
  | .NoDeepScrub => "nodeep-scrub"
  | .NoTierAgent => "notieragent"
  | .SortBitwise => "sortbitwise"
  | .RecoveryDeletes => "recovery_deletes"
  | .RequireJewelOsds => "require_jewel_osds"
  | .RequireKrakenOsds => "require_kraken_osds"

/-- The `impl fmt::Display for OsdOption` of `cmd.rs`, verbatim. -/
def OsdOption.displayFmt : OsdOption → String
  | .Full => "full"
  | .Pause => "pause"
  | .NoUp => "noup"
  | .NoDown => "nodown"
  | .NoOut => "noout"
  | .NoIn => "noin"
  | .NoBackfill => "nobackfill"
  | .NoRebalance => "norebalance"
  | .NoRecover => "norecover"
  | .NoScrub => "noscrub"
  | .NoDeepScrub => "nodeep-scrub"
  | .NoTierAgent => "notieragent"
  | .SortBitwise => "sortbitwise"
  | .RecoveryDeletes => "recovery_deletes"
  | .RequireJewelOsds => "require_jewel_osds"
  | .RequireKrakenOsds => "require_kraken_osds"

/-- The `impl AsRef<str> for OsdOption` of `cmd.rs`, verbatim. -/
def OsdOption.asRefStr : OsdOption → String
  | .Full => "full"
  | .Pause => "pause"
  | .NoUp => "noup"
  | .NoDown => "nodown"
  | .NoOut => "noout"
  | .NoIn => "noin"
  | .NoBackfill => "nobackfill"
  | .NoRebalance => "norebalance"
  | .NoRecover => "norecover"
  | .NoScrub => "noscrub"
  | .NoDeepScrub => "nodeep-scrub"
  | .NoTierAgent => "notieragent"
  | .SortBitwise => "sortbitwise"
  | .RecoveryDeletes => "recovery_deletes"
  | .RequireJewelOsds => "require_jewel_osds"
  | .RequireKrakenOsds => "require_kraken_osds"

/-- The derived serde deserializer of `OsdOption`: the inverse token lookup
generated from the `serde(rename = ...)` attributes; unknown tokens are a
deserialization error (`none`). -/
def OsdOption.fromToken (s : String) : Option OsdOption :=
  if s = "full" then some .Full
  else if s = "pause" then some .Pause
  else if s = "noup" then some .NoUp
  else if s = "nodown" then some .NoDown
  else if s = "noout" then some .NoOut
  else if s = "noin" then some .NoIn
  else if s = "nobackfill" then some .NoBackfill
  else if s = "norebalance" then some .NoRebalance
  else if s = "norecover" then some .NoRecover
  else if s = "noscrub" then some .NoScrub
  else if s = "nodeep-scrub" then some .NoDeepScrub
  else if s = "notieragent" then some .NoTierAgent
  else if s = "sortbitwise" then some .SortBitwise
  else if s = "recovery_deletes" then some .RecoveryDeletes
  else if s = "require_jewel_osds" then some .RequireJewelOsds
  else if s = "require_kraken_osds" then some .RequireKrakenOsds
  else none

/-- All variants of `OsdOption`, in declaration order. -/
def allOsdOptions : List OsdOption :=
  [.Full, .Pause, .NoUp, .NoDown, .NoOut, .NoIn, .NoBackfill, .NoRebalance,
   .NoRecover, .NoScrub, .NoDeepScrub, .NoTierAgent, .SortBitwise,
   .RecoveryDeletes, .RequireJewelOsds, .RequireKrakenOsds]

/-- Pool tunables (`enum PoolOption` of `cmd.rs`). -/
inductive PoolOption where
  | Size
  | MinSize
  | CrashReplayInterval
  | PgNum
  | PgpNum
  | CrushRule
  | HashPsPool
  | NoDelete
  | NoPgChange
  | NoSizeChange
  | WriteFadviceDontNeed
  | NoScrub
  | NoDeepScrub
  | HitSetType
  | HitSetPeriod
  | HitSetCount
  | HitSetFpp
  | UseGmtHitset
  | TargetMaxBytes
  | TargetMaxObjects
  | CacheTargetDirtyRatio
  | CacheTargetDirtyHighRatio
  | CacheTargetFullRatio
  | CacheMinFlushAge
  | CacheMinEvictAge
  | Auid
  | MinReadRecencyForPromote
  | MinWriteRecencyForPromte
  | FastRead
  | HitSetGradeDecayRate
  | HitSetSearchLastN
  | ScrubMinInterval
  | ScrubMaxInterval
  | DeepScrubInterval
  | RecoveryPriority
  | RecoveryOpPriority
  | ScrubPriority
  | CompressionMode
  | CompressionAlgorithm
  | CompressionRequiredRatio
  | CompressionMaxBlobSize
  | CompressionMinBlobSize
  | CsumType
  | CsumMinBlock
  | CsumMaxBlock
  | AllocEcOverwrites
  deriving DecidableEq, Fintype

/-- The serde wire token of each `PoolOption` variant, from the
`serde(rename = ...)` attributes. -/
def PoolOption.serdeToken : PoolOption → String
  | .Size => "size"
  | .MinSize => "min_size"
  | .CrashReplayInterval => "crash_replay_interval"
  | .PgNum => "pg_num"
  | .PgpNum => "pgp_num"
  | .CrushRule => "crush_rule"
  | .HashPsPool => "hashpspool"
  | .NoDelete => "nodelete"
  | .NoPgChange => "nopgchange"
  | .NoSizeChange => "nosizechange"
  | .WriteFadviceDontNeed => "write_fadvice_dontneed"
  | .NoScrub => "noscrub"
  | .NoDeepScrub => "nodeep-scrub"
  | .HitSetType => "hit_set_type"
  | .HitSetPeriod => "hit_set_period"
  | .HitSetCount => "hit_set_count"
  | .HitSetFpp => "hit_set_fpp"
  | .UseGmtHitset => "use_gmt_hitset"
  | .TargetMaxBytes => "target_max_bytes"
  | .TargetMaxObjects => "target_max_objects"
  | .CacheTargetDirtyRatio => "cache_target_dirty_ratio"
  | .CacheTargetDirtyHighRatio => "cache_target_dirty_high_ratio"
  | .CacheTargetFullRatio => "cache_target_full_ratio"
  | .CacheMinFlushAge => "cache_min_flush_age"
  | .CacheMinEvictAge => "cachem_min_evict_age"
  | .Auid => "auid"
  | .MinReadRecencyForPromote => "min_read_recency_for_promote"
  | .MinWriteRecencyForPromte => "min_write_recency_for_promote"
  | .FastRead => "fast_read"
  | .HitSetGradeDecayRate => "hit_set_decay_rate"
  | .HitSetSearchLastN => "hit_set_search_last_n"
  | .ScrubMinInterval => "scrub_min_interval"
  | .ScrubMaxInterval => "scrub_max_interval"
  | .DeepScrubInterval => "deep_scrub_interval"
  | .RecoveryPriority => "recovery_priority"
  | .RecoveryOpPriority => "recovery_op_priority"
  | .ScrubPriority => "scrub_priority"
  | .CompressionMode => "compression_mode"
  | .CompressionAlgorithm => "compression_algorithm"
  | .CompressionRequiredRatio => "compression_required_ratio"
  | .CompressionMaxBlobSize => "compression_max_blob_size"
  | .CompressionMinBlobSize => "compression_min_blob_size"
  | .CsumType => "csum_type"
  | .CsumMinBlock => "csum_min_block"
  | .CsumMaxBlock => "csum_max_block"
  | .AllocEcOverwrites => "allow_ec_overwrites"

/-- The `impl fmt::Display for PoolOption` of `cmd.rs`, verbatim. -/
def PoolOption.displayFmt : PoolOption → String
  | .Size => "size"
  | .MinSize => "min_size"
  | .CrashReplayInterval => "crash_replay_interval"
  | .PgNum => "pg_num"
  | .PgpNum => "pgp_num"
  | .CrushRule => "crush_rule"
  | .HashPsPool => "hashpspool"
  | .NoDelete => "nodelete"
  | .NoPgChange => "nopgchange"
  | .NoSizeChange => "nosizechange"
  | .WriteFadviceDontNeed => "write_fadvice_dontneed"
  | .NoScrub => "noscrub"
  | .NoDeepScrub => "nodeep-scrub"
  | .HitSetType => "hit_set_type"
  | .HitSetPeriod => "hit_set_period"
  | .HitSetCount => "hit_set_count"
  | .HitSetFpp => "hit_set_fpp"
  | .UseGmtHitset => "use_gmt_hitset"
  | .TargetMaxBytes => "target_max_bytes"
  | .TargetMaxObjects => "target_max_objects"
  | .CacheTargetDirtyRatio => "cache_target_dirty_ratio"
  | .CacheTargetDirtyHighRatio => "cache_target_dirty_high_ratio"
  | .CacheTargetFullRatio => "cache_target_full_ratio"
  | .CacheMinFlushAge => "cache_min_flush_age"
  | .CacheMinEvictAge => "cachem_min_evict_age"
  | .Auid => "auid"
  | .MinReadRecencyForPromote => "min_read_recency_for_promote"
  | .MinWriteRecencyForPromte => "min_write_recency_for_promote"
  | .FastRead => "fast_read"
  | .HitSetGradeDecayRate => "hit_set_decay_rate"
  | .HitSetSearchLastN => "hit_set_search_last_n"
  | .ScrubMinInterval => "scrub_min_interval"
  | .ScrubMaxInterval => "scrub_max_interval"
  | .DeepScrubInterval => "deep_scrub_interval"
  | .RecoveryPriority => "recovery_priority"
  | .RecoveryOpPriority => "recovery_op_priority"
  | .ScrubPriority => "scrub_priority"
  | .CompressionMode => "compression_mode"
  | .CompressionAlgorithm => "compression_algorithm"
  | .CompressionRequiredRatio => "compression_required_ratio"
  | .CompressionMaxBlobSize => "compression_max_blob_size"
  | .CompressionMinBlobSize => "compression_min_blob_size"
  | .CsumType => "csum_type"
  | .CsumMinBlock => "csum_min_block"
  | .CsumMaxBlock => "csum_max_block"
  | .AllocEcOverwrites => "allow_ec_overwrites"

/-- The `impl AsRef<str> for PoolOption` of `cmd.rs`, verbatim. -/
def PoolOption.asRefStr : PoolOption → String
  | .Size => "size"
  | .MinSize => "min_size"
  | .CrashReplayInterval => "crash_replay_interval"
  | .PgNum => "pg_num"
  | .PgpNum => "pgp_num"
  | .CrushRule => "crush_rule"
  | .HashPsPool => "hashpspool"
  | .NoDelete => "nodelete"
  | .NoPgChange => "nopgchange"
  | .NoSizeChange => "nosizechange"
  | .WriteFadviceDontNeed => "write_fadvice_dontneed"
  | .NoScrub => "noscrub"
  | .NoDeepScrub => "nodeep-scrub"
  | .HitSetType => "hit_set_type"
  | .HitSetPeriod => "hit_set_period"
  | .HitSetCount => "hit_set_count"
  | .HitSetFpp => "hit_set_fpp"
  | .UseGmtHitset => "use_gmt_hitset"
  | .TargetMaxBytes => "target_max_bytes"
  | .TargetMaxObjects => "target_max_objects"
  | .CacheTargetDirtyRatio => "cache_target_dirty_ratio"
  | .CacheTargetDirtyHighRatio => "cache_target_dirty_high_ratio"
  | .CacheTargetFullRatio => "cache_target_full_ratio"
  | .CacheMinFlushAge => "cache_min_flush_age"
  | .CacheMinEvictAge => "cachem_min_evict_age"
  | .Auid => "auid"
  | .MinReadRecencyForPromote => "min_read_recency_for_promote"
  | .MinWriteRecencyForPromte => "min_write_recency_for_promote"
  | .FastRead => "fast_read"
  | .HitSetGradeDecayRate => "hit_set_decay_rate"
  | .HitSetSearchLastN => "hit_set_search_last_n"
  | .ScrubMinInterval => "scrub_min_interval"
  | .ScrubMaxInterval => "scrub_max_interval"
  | .DeepScrubInterval => "deep_scrub_interval"
  | .RecoveryPriority => "recovery_priority"
  | .RecoveryOpPriority => "recovery_op_priority"
  | .ScrubPriority => "scrub_priority"
  | .CompressionMode => "compression_mode"
  | .CompressionAlgorithm => "compression_algorithm"
  | .CompressionRequiredRatio => "compression_required_ratio"
  | .CompressionMaxBlobSize => "compression_max_blob_size"
  | .CompressionMinBlobSize => "compression_min_blob_size"
  | .CsumType => "csum_type"
  | .CsumMinBlock => "csum_min_block"
  | .CsumMaxBlock => "csum_max_block"
  | .AllocEcOverwrites => "allow_ec_overwrites"

/-- The derived serde deserializer of `PoolOption`: inverse token lookup. -/
def PoolOption.fromToken (s : String) : Option PoolOption :=
  if s = "size" then some .Size
  else if s = "min_size" then some .MinSize
  else if s = "crash_replay_interval" then some .CrashReplayInterval
  else if s = "pg_num" then some .PgNum
  else if s = "pgp_num" then some .PgpNum
  else if s = "crush_rule" then some .CrushRule
  else if s = "hashpspool" then some .HashPsPool
  else if s = "nodelete" then some .NoDelete
  else if s = "nopgchange" then some .NoPgChange
  else if s = "nosizechange" then some .NoSizeChange
  else if s = "write_fadvice_dontneed" then some .WriteFadviceDontNeed
  else if s = "noscrub" then some .NoScrub
  else if s = "nodeep-scrub" then some .NoDeepScrub
  else if s = "hit_set_type" then some .HitSetType
  else if s = "hit_set_period" then some .HitSetPeriod
  else if s = "hit_set_count" then some .HitSetCount
  else if s = "hit_set_fpp" then some .HitSetFpp
  else if s = "use_gmt_hitset" then some .UseGmtHitset
  else if s = "target_max_bytes" then some .TargetMaxBytes
  else if s = "target_max_objects" then some .TargetMaxObjects
  else if s = "cache_target_dirty_ratio" then some .CacheTargetDirtyRatio
  else if s = "cache_target_dirty_high_ratio" then some .CacheTargetDirtyHighRatio
  else if s = "cache_target_full_ratio" then some .CacheTargetFullRatio
  else if s = "cache_min_flush_age" then some .CacheMinFlushAge
  else if s = "cachem_min_evict_age" then some .CacheMinEvictAge
  else if s = "auid" then some .Auid
  else if s = "min_read_recency_for_promote" then some .MinReadRecencyForPromote
  else if s = "min_write_recency_for_promote" then some .MinWriteRecencyForPromte
  else if s = "fast_read" then some .FastRead
  else if s = "hit_set_decay_rate" then some .HitSetGradeDecayRate
  else if s = "hit_set_search_last_n" then some .HitSetSearchLastN
  else if s = "scrub_min_interval" then some .ScrubMinInterval
  else if s = "scrub_max_interval" then some .ScrubMaxInterval
  else if s = "deep_scrub_interval" then some .DeepScrubInterval
  else if s = "recovery_priority" then some .RecoveryPriority
  else if s = "recovery_op_priority" then some .RecoveryOpPriority
  else if s = "scrub_priority" then some .ScrubPriority
  else if s = "compression_mode" then some .CompressionMode
  else if s = "compression_algorithm" then some .CompressionAlgorithm
  else if s = "compression_required_ratio" then some .CompressionRequiredRatio
  else if s = "compression_max_blob_size" then some .CompressionMaxBlobSize
  else if s = "compression_min_blob_size" then some .CompressionMinBlobSize
  else if s = "csum_type" then some .CsumType
  else if s = "csum_min_block" then some .CsumMinBlock
  else if s = "csum_max_block" then some .CsumMaxBlock
  else if s = "allow_ec_overwrites" then some .AllocEcOverwrites
  else none

/-- All variants of `PoolOption`, in declaration order. -/
def allPoolOptions : List PoolOption :=
  [.Size, .MinSize, .CrashReplayInterval, .PgNum, .PgpNum, .CrushRule, .HashPsPool, .NoDelete, .NoPgChange, .NoSizeChange, .WriteFadviceDontNeed, .NoScrub, .NoDeepScrub, .HitSetType, .HitSetPeriod, .HitSetCount, .HitSetFpp, .UseGmtHitset, .TargetMaxBytes, .TargetMaxObjects, .CacheTargetDirtyRatio, .CacheTargetDirtyHighRatio, .CacheTargetFullRatio, .CacheMinFlushAge, .CacheMinEvictAge, .Auid, .MinReadRecencyForPromote, .MinWriteRecencyForPromte, .FastRead, .HitSetGradeDecayRate, .HitSetSearchLastN, .ScrubMinInterval, .ScrubMaxInterval, .DeepScrubInterval, .RecoveryPriority, .RecoveryOpPriority, .ScrubPriority, .CompressionMode, .CompressionAlgorithm, .CompressionRequiredRatio, .CompressionMaxBlobSize, .CompressionMinBlobSize, .CsumType, .CsumMinBlock, .CsumMaxBlock, .AllocEcOverwrites]

/-- Cluster health levels (`enum HealthStatus` of `cmd.rs`). -/
inductive HealthStatus where
  | Err
  | Warn
  | Ok
  deriving DecidableEq, Fintype

/-- The serde wire token of each `HealthStatus` variant. -/
def HealthStatus.serdeToken : HealthStatus → String
  | .Err => "HEALTH_ERR"
  | .Warn => "HEALTH_WARN"
  | .Ok => "HEALTH_OK"

/-- The `impl fmt::Display for HealthStatus` of `cmd.rs`, verbatim. -/
def HealthStatus.displayFmt : HealthStatus → String
  | .Err => "HEALTH_ERR"
  | .Ok => "HEALTH_OK"
  | .Warn => "HEALTH_WARN"

/-- The `impl AsRef<str> for HealthStatus` of `cmd.rs`, verbatim. -/
def HealthStatus.asRefStr : HealthStatus → String
  | .Err => "HEALTH_ERR"
  | .Ok => "HEALTH_OK"
  | .Warn => "HEALTH_WARN"

/-- The derived serde deserializer of `HealthStatus`: inverse token lookup. -/
def HealthStatus.fromToken (s : String) : Option HealthStatus :=
  if s = "HEALTH_ERR" then some .Err
  else if s = "HEALTH_WARN" then some .Warn
  else if s = "HEALTH_OK" then some .Ok
  else none

/-- All variants of `HealthStatus`, in declaration order. -/
def allHealthStatuses : List HealthStatus := [.Err, .Warn, .Ok]

/-- Time-check round state (`enum RoundStatus` of `cmd.rs`). -/
inductive RoundStatus where
  | Finished
  | OnGoing
  deriving DecidableEq, Fintype

/-- The serde wire token of each `RoundStatus` variant. -/
def RoundStatus.serdeToken : RoundStatus → String
  | .Finished => "finished"
  | .OnGoing => "on-going"

/-- The `impl fmt::Display for RoundStatus` of `cmd.rs`, verbatim. -/
def RoundStatus.displayFmt : RoundStatus → String
  | .Finished => "finished"
  | .OnGoing => "on-going"

/-- The `impl AsRef<str> for RoundStatus` of `cmd.rs`, verbatim. -/
def RoundStatus.asRefStr : RoundStatus → String
  | .Finished => "finished"
  | .OnGoing => "on-going"

/-- The derived serde deserializer of `RoundStatus`: inverse token lookup. -/
def RoundStatus.fromToken (s : String) : Option RoundStatus :=
  if s = "finished" then some .Finished
  else if s = "on-going" then some .OnGoing
  else none

/-- All variants of `RoundStatus`, in declaration order. -/
def allRoundStatuses : List RoundStatus := [.Finished, .OnGoing]

/-- Monitor daemon state (`enum MonState` of `cmd.rs`). -/
inductive MonState where
  | Probing
  | Synchronizing
  | Electing
  | Leader
  | Peon
  | Shutdown
  deriving DecidableEq

/-- The external `uuid::Uuid` type, kept abstract as its textual form. -/
def Uuid := String

/-- Response model `CephMon` of `cmd.rs`. -/
structure CephMon where
  rank : Int
  name : String
  addr : String

/-- Response model `CrushNode` of `cmd.rs`; `f64` fields become `Float`. -/
structure CrushNode where
  id : Int
  name : String
  crush_type : String
  type_id : Int
  children : Option (List Int)
  crush_weight : Option Float
  depth : Option Int
  «exists» : Option Int
  status : Option String
  reweight : Option Float
  primary_affinity : Option Float

/-- Response model `CrushTree` of `cmd.rs`. -/
structure CrushTree where
  nodes : List CrushNode
  stray : List String

/-- Response model `MgrMetadata` of `cmd.rs`. -/
structure MgrMetadata where
  id : String
  arch : String
  ceph_version : String
  cpu : String
  distro : String
  distro_description : String
  distro_version : String
  hostname : String
  kernel_description : String
  kernel_version : String
  mem_swap_kb : Nat
  mem_total_kb : Nat
  os : String

/-- Response model `MgrStandby` of `cmd.rs`. -/
structure MgrStandby where
  gid : Nat
  name : String
  available_modules : List String

/-- Response model `MgrDump` of `cmd.rs`. -/
structure MgrDump where
  epoch : Nat
  active_gid : Nat
  active_name : String
  active_addr : String
  available : Bool
  standbys : List MgrStandby
  modules : List String
  available_modules : List String

/-- Response model `MonDump` of `cmd.rs`. -/
structure MonDump where
  epoch : Int
  fsid : String
  modified : String
  created : String
  mons : List CephMon
  quorum : List Int

/-- Response model `Mon` of `cmd.rs`. -/
structure Mon where
  rank : Nat
  name : String
  addr : String

/-- Response model `MonMap` of `cmd.rs`. -/
structure MonMap where
  epoch : Nat
  fsid : Uuid
  modified : String
  created : String
  mons : List Mon

/-- Response model `MonStatus` of `cmd.rs`. -/
structure MonStatus where
  name : String
  rank : Nat
  state : MonState
  election_epoch : Nat
  quorum : List Nat
  outside_quorum : List Nat
  extra_probe_peers : List Nat
  sync_provider : List Nat
  monmap : MonMap

/-- Response model `StoreStats` of `cmd.rs`. -/
structure StoreStats where
  bytes_total : Nat
  bytes_sst : Nat
  bytes_log : Nat
  bytes_misc : Nat
  last_updated : String

/-- Response model `MonHealth` of `cmd.rs`. -/
structure MonHealth where
  name : String
  kb_total : Nat
  kb_used : Nat
  kb_avail : Nat
  avail_percent : Nat
  last_updated : String
  store_stats : StoreStats
  health : HealthStatus

/-- Response model `ServiceHealth` of `cmd.rs`. -/
structure ServiceHealth where
  mons : List MonHealth

/-- Response model `Health` of `cmd.rs`. -/
structure Health where
  health_services : List ServiceHealth

/-- Response model `MonTimeChecks` of `cmd.rs`. -/
structure MonTimeChecks where
  name : String
  skew : Float
  latency : Float
  health : HealthStatus

/-- Response model `TimeChecks` of `cmd.rs`. -/
structure TimeChecks where
  epoch : Nat
  round : Nat
  round_status : RoundStatus
  mons : List MonTimeChecks

/-- Response model `ClusterHealth` of `cmd.rs`. -/
structure ClusterHealth where
  health : Health
  timechecks : TimeChecks
  summary : List String
  overall_status : HealthStatus
  detail : List String

/-- Descriptor of `cluster_health`. -/
def cluster_health_cmd : Json :=
  Json.obj [("prefix", Json.str "health")]

/-- `pub fn cluster_health` of `cmd.rs`, parameterized by the external
`serde_json::from_str::<ClusterHealth>` decoder. -/
def cluster_health (T : Transport)
    (dec : String → RadosResult ClusterHealth) :
    RadosResult ClusterHealth × List Json :=
  match T cluster_health_cmd with
  | Except.error e => (Except.error e, [cluster_health_cmd])
  | Except.ok result =>
    match result.1 with
    | some return_data =>
      match firstLine? return_data with
      | some res => (dec res, [cluster_health_cmd])
      | none =>
        (Except.error (RadosError.Error
          ("Unable to parse health output: " ++ rustDebugStr return_data)),
         [cluster_health_cmd])
    | none =>
      (Except.error (RadosError.Error
        (result.2.getD "No response from ceph for health")),
       [cluster_health_cmd])

/-- Descriptor of `osd_out`. -/
def osd_out_cmd (osd_id : Nat) : Json :=
  Json.obj [("prefix", Json.str "osd out"),
            ("ids", Json.arr [Json.str (toString osd_id)])]

/-- `pub fn osd_out` of `cmd.rs`. -/
def osd_out (T : Transport) (osd_id : Nat) (simulate : Bool) :
    RadosResult Unit × List Json :=
  if !simulate then
    match T (osd_out_cmd osd_id) with
    | Except.error e => (Except.error e, [osd_out_cmd osd_id])
    | Except.ok _ => (Except.ok (), [osd_out_cmd osd_id])
  else
    (Except.ok (), [])

/-- Descriptor of `osd_crush_remove`. -/
def osd_crush_remove_cmd (osd_id : Nat) : Json :=
  Json.obj [("prefix", Json.str "osd crush remove"),
            ("name", Json.str ("osd." ++ toString osd_id))]

/-- `pub fn osd_crush_remove` of `cmd.rs`. -/
def osd_crush_remove (T : Transport) (osd_id : Nat) (simulate : Bool) :
    RadosResult Unit × List Json :=
  if !simulate then
    match T (osd_crush_remove_cmd osd_id) with
    | Except.error e => (Except.error e, [osd_crush_remove_cmd osd_id])
    | Except.ok _ => (Except.ok (), [osd_crush_remove_cmd osd_id])
  else
    (Except.ok (), [])

/-- Descriptor of `osd_pool_get`; the pool option is embedded through its
serde wire token. -/
def osd_pool_get_cmd (pool : String) (choice : PoolOption) : Json :=
  Json.obj [("prefix", Json.str "osd pool get"),
            ("pool", Json.str pool),
            ("var", Json.str (PoolOption.serdeToken choice))]

/-- `pub fn osd_pool_get` of `cmd.rs`: first reply line passed through. -/
def osd_pool_get (T : Transport) (pool : String) (choice : PoolOption) :
    RadosResult String × List Json :=
  match T (osd_pool_get_cmd pool choice) with
  | Except.error e => (Except.error e, [osd_pool_get_cmd pool choice])
  | Except.ok result =>
    match result.1 with
    | some return_data =>
      match firstLine? return_data with
      | some res => (Except.ok res, [osd_pool_get_cmd pool choice])
      | none =>
        (Except.error (RadosError.Error
          ("Unable to parse osd pool get output: " ++ rustDebugStr return_data)),
         [osd_pool_get_cmd pool choice])
    | none =>
      (Except.error (RadosError.Error
        (result.2.getD "No response from ceph for osd pool get")),
       [osd_pool_get_cmd pool choice])

/-- Descriptor of `osd_pool_set`. -/
def osd_pool_set_cmd (pool : String) (key : PoolOption) (value : String) : Json :=
  Json.obj [("prefix", Json.str "osd pool set"),
            ("pool", Json.str pool),
            ("var", Json.str (PoolOption.serdeToken key)),
            ("val", Json.str value)]

/-- `pub fn osd_pool_set` of `cmd.rs`. -/
def osd_pool_set (T : Transport) (pool : String) (key : PoolOption)
    (value : String) (simulate : Bool) : RadosResult Unit × List Json :=
  if !simulate then
    match T (osd_pool_set_cmd pool key value) with
    | Except.error e => (Except.error e, [osd_pool_set_cmd pool key value])
    | Except.ok _ => (Except.ok (), [osd_pool_set_cmd pool key value])
  else
    (Except.ok (), [])

/-- Descriptor of `osd_set`: the `sure` field is present exactly when `force`
is requested. -/
def osd_set_cmd (key : OsdOption) (force : Bool) : Json :=
  match force with
  | true =>
    Json.obj [("prefix", Json.str "osd set"),
              ("key", Json.str (OsdOption.serdeToken key)),
              ("sure", Json.str "--yes-i-really-mean-it")]
  | false =>
    Json.obj [("prefix", Json.str "osd set"),
              ("key", Json.str (OsdOption.serdeToken key))]

/-- `pub fn osd_set` of `cmd.rs`. -/
def osd_set (T : Transport) (key : OsdOption) (force : Bool)
    (simulate : Bool) : RadosResult Unit × List Json :=
  if !simulate then
    match T (osd_set_cmd key force) with
    | Except.error e => (Except.error e, [osd_set_cmd key force])
    | Except.ok _ => (Except.ok (), [osd_set_cmd key force])
  else
    (Except.ok (), [])

/-- Descriptor of `osd_unset`. -/
def osd_unset_cmd (key : OsdOption) : Json :=
  Json.obj [("prefix", Json.str "osd unset"),
            ("key", Json.str (OsdOption.serdeToken key))]

/-- `pub fn osd_unset` of `cmd.rs`. -/
def osd_unset (T : Transport) (key : OsdOption) (simulate : Bool) :
    RadosResult Unit × List Json :=
  if !simulate then
    match T (osd_unset_cmd key) with
    | Except.error e => (Except.error e, [osd_unset_cmd key])
    | Except.ok _ => (Except.ok (), [osd_unset_cmd key])
  else
    (Except.ok (), [])

/-- Descriptor of `osd_tree`. -/
def osd_tree_cmd : Json :=
  Json.obj [("prefix", Json.str "osd tree"),
            ("format", Json.str "json")]

/-- `pub fn osd_tree` of `cmd.rs`; note the fixed no-response message that
ignores the secondary channel. -/
def osd_tree (T : Transport) (dec : String → RadosResult CrushTree) :
    RadosResult CrushTree × List Json :=
  match T osd_tree_cmd with
  | Except.error e => (Except.error e, [osd_tree_cmd])
  | Except.ok result =>
    match result.1 with
    | some return_data =>
      match firstLine? return_data with
      | some res => (dec res, [osd_tree_cmd])
      | none =>
        (Except.error (RadosError.Error
          ("Unable to parse osd tree output: " ++ rustDebugStr return_data)),
         [osd_tree_cmd])
    | none =>
      (Except.error (RadosError.Error "No response from ceph for osd tree"),
       [osd_tree_cmd])

/-- Descriptor of `status`. -/
def status_cmd : Json :=
  Json.obj [("prefix", Json.str "status"),
            ("format", Json.str "json")]

/-- `pub fn status` of `cmd.rs`: first reply line passed through. -/
def status (T : Transport) : RadosResult String × List Json :=
  match T status_cmd with
  | Except.error e => (Except.error e, [status_cmd])
  | Except.ok result =>
    match result.1 with
    | some return_data =>
      match firstLine? return_data with
      | some res => (Except.ok res, [status_cmd])
      | none =>
        (Except.error (RadosError.Error
          ("Unable to parse status output: " ++ rustDebugStr return_data)),
         [status_cmd])
    | none =>
      (Except.error (RadosError.Error "No response from ceph for status"),
       [status_cmd])

/-- Descriptor of `mon_dump`. -/
def mon_dump_cmd : Json :=
  Json.obj [("prefix", Json.str "mon dump"),
            ("format", Json.str "json")]

/-- `pub fn mon_dump` of `cmd.rs`. -/
def mon_dump (T : Transport) (dec : String → RadosResult MonDump) :
    RadosResult MonDump × List Json :=
  match T mon_dump_cmd with
  | Except.error e => (Except.error e, [mon_dump_cmd])
  | Except.ok result =>
    match result.1 with
    | some return_data =>
      match firstLine? return_data with
      | some res => (dec res, [mon_dump_cmd])
      | none =>
        (Except.error (RadosError.Error
          ("Unable to parse mon dump output: " ++ rustDebugStr return_data)),
         [mon_dump_cmd])
    | none =>
      (Except.error (RadosError.Error "No response from ceph for mon dump"),
       [mon_dump_cmd])

/-- Descriptor of `mon_quorum`. -/
def mon_quorum_cmd : Json :=
  Json.obj [("prefix", Json.str "quorum_status"),
            ("format", Json.str "json")]

/-- `pub fn mon_quorum` of `cmd.rs`: the first line is decoded by serde into
a JSON string. -/
def mon_quorum (T : Transport) (dec : String → RadosResult String) :
    RadosResult String × List Json :=
  match T mon_quorum_cmd with
  | Except.error e => (Except.error e, [mon_quorum_cmd])
  | Except.ok result =>
    match result.1 with
    | some return_data =>
      match firstLine? return_data with
      | some res => (dec res, [mon_quorum_cmd])
      | none =>
        (Except.error (RadosError.Error
          ("Unable to parse quorum_status output: " ++ rustDebugStr return_data)),
         [mon_quorum_cmd])
    | none =>
      (Except.error (RadosError.Error "No response from ceph for quorum_status"),
       [mon_quorum_cmd])

/-- Descriptor of `mon_status`. -/
def mon_status_cmd : Json :=
  Json.obj [("prefix", Json.str "mon_status")]

/-- `pub fn mon_status` of `cmd.rs`. -/
def mon_status (T : Transport) (dec : String → RadosResult MonStatus) :
    RadosResult MonStatus × List Json :=
  match T mon_status_cmd with
  | Except.error e => (Except.error e, [mon_status_cmd])
  | Except.ok result =>
    match result.1 with
    | some return_data =>
      match firstLine? return_data with
      | some res => (dec res, [mon_status_cmd])
      | none =>
        (Except.error (RadosError.Error
          ("Unable to parse mon_status output: " ++ rustDebugStr return_data)),
         [mon_status_cmd])
    | none =>
      (Except.error (RadosError.Error "No response from ceph for mon_status"),
       [mon_status_cmd])

/-- Descriptor of `version`. -/
def version_cmd : Json :=
  Json.obj [("prefix", Json.str "version")]

/-- `pub fn version` of `cmd.rs`: first reply line passed through. -/
def version (T : Transport) : RadosResult String × List Json :=
  match T version_cmd with
  | Except.error e => (Except.error e, [version_cmd])
  | Except.ok result =>
    match result.1 with
    | some return_data =>
      match firstLine? return_data with
      | some res => (Except.ok res, [version_cmd])
      | none =>
        (Except.error (RadosError.Error
          ("Unable to parse version output: " ++ rustDebugStr return_data)),
         [version_cmd])
    | none =>
      (Except.error (RadosError.Error "No response from ceph for version"),
       [version_cmd])

/-- Descriptor of `osd_pool_quota_get`. -/
def osd_pool_quota_get_cmd (pool : String) : Json :=
  Json.obj [("prefix", Json.str "osd pool get-quota"),
            ("pool", Json.str pool)]

/-- `pub fn osd_pool_quota_get` of `cmd.rs`: the first line is parsed as an
unsigned 64-bit integer. -/
def osd_pool_quota_get (T : Transport) (pool : String) :
    RadosResult Nat × List Json :=
  match T (osd_pool_quota_get_cmd pool) with
  | Except.error e => (Except.error e, [osd_pool_quota_get_cmd pool])
  | Except.ok result =>
    match result.1 with
    | some return_data =>
      match firstLine? return_data with
      | some res => (u64_from_str res, [osd_pool_quota_get_cmd pool])
      | none =>
        (Except.error (RadosError.Error
          ("Unable to parse osd pool quota-get output: " ++
            rustDebugStr return_data)),
         [osd_pool_quota_get_cmd pool])
    | none =>
      (Except.error (RadosError.Error
        "No response from ceph for osd pool quota-get"),
       [osd_pool_quota_get_cmd pool])

/-- Descriptor of `auth_del`. -/
def auth_del_cmd (osd_id : Nat) : Json :=
  Json.obj [("prefix", Json.str "auth del"),
            ("entity", Json.str ("osd." ++ toString osd_id))]

/-- `pub fn auth_del` of `cmd.rs`. -/
def auth_del (T : Transport) (osd_id : Nat) (simulate : Bool) :
    RadosResult Unit × List Json :=
  if !simulate then
    match T (auth_del_cmd osd_id) with
    | Except.error e => (Except.error e, [auth_del_cmd osd_id])
    | Except.ok _ => (Except.ok (), [auth_del_cmd osd_id])
  else
    (Except.ok (), [])

/-- Descriptor of `osd_rm`. -/
def osd_rm_cmd (osd_id : Nat) : Json :=
  Json.obj [("prefix", Json.str "osd rm"),
            ("ids", Json.arr [Json.str (toString osd_id)])]

/-- `pub fn osd_rm` of `cmd.rs`. -/
def osd_rm (T : Transport) (osd_id : Nat) (simulate : Bool) :
    RadosResult Unit × List Json :=
  if !simulate then
    match T (osd_rm_cmd osd_id) with
    | Except.error e => (Except.error e, [osd_rm_cmd osd_id])
    | Except.ok _ => (Except.ok (), [osd_rm_cmd osd_id])
  else
    (Except.ok (), [])

/-- Descriptor of `osd_create`: the `id` field is present only when the
caller supplies one. -/
def osd_create_cmd (id : Option Nat) : Json :=
  match id with
  | some osd_id =>
    Json.obj [("prefix", Json.str "osd create"),
              ("id", Json.str ("osd." ++ toString osd_id))]
  | none =>
    Json.obj [("prefix", Json.str "osd create")]

/-- `pub fn osd_create` of `cmd.rs`: simulation returns the placeholder id 0;
otherwise the first reply line is parsed as an unsigned 64-bit integer. -/
def osd_create (T : Transport) (id : Option Nat) (simulate : Bool) :
    RadosResult Nat × List Json :=
  if simulate then
    (Except.ok 0, [])
  else
    match T (osd_create_cmd id) with
    | Except.error e => (Except.error e, [osd_create_cmd id])
    | Except.ok result =>
      match result.1 with
      | some return_data =>
        match firstLine? return_data with
        | some num => (u64_from_str num, [osd_create_cmd id])
        | none =>
          (Except.error (RadosError.Error
            ("Unable to parse osd create output: " ++ rustDebugStr return_data)),
           [osd_create_cmd id])
      | none =>
        (Except.error (RadosError.Error
          ("Unable to parse osd create output: " ++ rustDebugPair result)),
         [osd_create_cmd id])

/-- Descriptor of `mgr_auth_add`. -/
def mgr_auth_add_cmd (mgr_id : String) : Json :=
  Json.obj [("prefix", Json.str "auth add"),
            ("entity", Json.str ("mgr." ++ mgr_id)),
            ("caps", Json.arr [Json.str "mon", Json.str "allow profile mgr",
                               Json.str "osd", Json.str "allow *",
                               Json.str "mds", Json.str "allow *"])]

/-- `pub fn mgr_auth_add` of `cmd.rs`. -/
def mgr_auth_add (T : Transport) (mgr_id : String) (simulate : Bool) :
    RadosResult Unit × List Json :=
  if !simulate then
    match T (mgr_auth_add_cmd mgr_id) with
    | Except.error e => (Except.error e, [mgr_auth_add_cmd mgr_id])
    | Except.ok _ => (Except.ok (), [mgr_auth_add_cmd mgr_id])
  else
    (Except.ok (), [])

/-- Descriptor of `osd_auth_add`. -/
def osd_auth_add_cmd (osd_id : Nat) : Json :=
  Json.obj [("prefix", Json.str "auth add"),
            ("entity", Json.str ("osd." ++ toString osd_id)),
            ("caps", Json.arr [Json.str "mon", Json.str "allow rwx",
                               Json.str "osd", Json.str "allow *"])]

/-- `pub fn osd_auth_add` of `cmd.rs`. -/
def osd_auth_add (T : Transport) (osd_id : Nat) (simulate : Bool) :
    RadosResult Unit × List Json :=
  if !simulate then
    match T (osd_auth_add_cmd osd_id) with
    | Except.error e => (Except.error e, [osd_auth_add_cmd osd_id])
    | Except.ok _ => (Except.ok (), [osd_auth_add_cmd osd_id])
  else
    (Except.ok (), [])

/-- Descriptor of `auth_get_key`. -/
def auth_get_key_cmd (client_type : String) (id : String) : Json :=
  Json.obj [("prefix", Json.str "auth get-key"),
            ("entity", Json.str (client_type ++ "." ++ id))]

/-- `pub fn auth_get_key` of `cmd.rs`: first reply line passed through. -/
def auth_get_key (T : Transport) (client_type : String) (id : String) :
    RadosResult String × List Json :=
  match T (auth_get_key_cmd client_type id) with
  | Except.error e => (Except.error e, [auth_get_key_cmd client_type id])
  | Except.ok result =>
    match result.1 with
    | some return_data =>
      match firstLine? return_data with
      | some key => (Except.ok key, [auth_get_key_cmd client_type id])
      | none =>
        (Except.error (RadosError.Error
          ("Unable to parse auth get-key: " ++ rustDebugStr return_data)),
         [auth_get_key_cmd client_type id])
    | none =>
      (Except.error (RadosError.Error
        ("Unable to parse auth get-key output: " ++ rustDebugPair result)),
       [auth_get_key_cmd client_type id])

/-- Descriptor of `osd_crush_add`: the id goes out as a bare integer here,
the weight as a floating point number. -/
def osd_crush_add_cmd (osd_id : Nat) (weight : Float) (host : String) : Json :=
  Json.obj [("prefix", Json.str "osd crush add"),
            ("id", Json.num osd_id),
            ("weight", Json.fnum weight),
            ("args", Json.arr [Json.str ("host=" ++ host)])]

/-- `pub fn osd_crush_add` of `cmd.rs`. -/
def osd_crush_add (T : Transport) (osd_id : Nat) (weight : Float)
    (host : String) (simulate : Bool) : RadosResult Unit × List Json :=
  if !simulate then
    match T (osd_crush_add_cmd osd_id weight host) with
    | Except.error e => (Except.error e, [osd_crush_add_cmd osd_id weight host])
    | Except.ok _ => (Except.ok (), [osd_crush_add_cmd osd_id weight host])
  else
    (Except.ok (), [])

/-- Descriptor of `mgr_dump`. -/
def mgr_dump_cmd : Json :=
  Json.obj [("prefix", Json.str "mgr dump")]

/-- `pub fn mgr_dump` of `cmd.rs`. -/
def mgr_dump (T : Transport) (dec : String → RadosResult MgrDump) :
    RadosResult MgrDump × List Json :=
  match T mgr_dump_cmd with
  | Except.error e => (Except.error e, [mgr_dump_cmd])
  | Except.ok result =>
    match result.1 with
    | some return_data =>
      match firstLine? return_data with
      | some res => (dec res, [mgr_dump_cmd])
      | none =>
        (Except.error (RadosError.Error
          ("Unable to parse mgr dump: " ++ rustDebugStr return_data)),
         [mgr_dump_cmd])
    | none =>
      (Except.error (RadosError.Error
        ("Unable to parse mgr dump output: " ++ rustDebugPair result)),
       [mgr_dump_cmd])

/-- Descriptor of `mgr_fail`. -/
def mgr_fail_cmd (mgr_id : String) : Json :=
  Json.obj [("prefix", Json.str "mgr fail"),
            ("name", Json.str mgr_id)]

/-- `pub fn mgr_fail` of `cmd.rs`. -/
def mgr_fail (T : Transport) (mgr_id : String) (simulate : Bool) :
    RadosResult Unit × List Json :=
  if !simulate then
    match T (mgr_fail_cmd mgr_id) with
    | Except.error e => (Except.error e, [mgr_fail_cmd mgr_id])
    | Except.ok _ => (Except.ok (), [mgr_fail_cmd mgr_id])
  else
    (Except.ok (), [])

/-- Descriptor of `mgr_list_modules`. -/
def mgr_list_modules_cmd : Json :=
  Json.obj [("prefix", Json.str "mgr module ls")]

/-- `pub fn mgr_list_modules` of `cmd.rs`. -/
def mgr_list_modules (T : Transport)
    (dec : String → RadosResult (List String)) :
    RadosResult (List String) × List Json :=
  match T mgr_list_modules_cmd with
  | Except.error e => (Except.error e, [mgr_list_modules_cmd])
  | Except.ok result =>
    match result.1 with
    | some return_data =>
      match firstLine? return_data with
      | some res => (dec res, [mgr_list_modules_cmd])
      | none =>
        (Except.error (RadosError.Error
          ("Unable to parse mgr module ls: " ++ rustDebugStr return_data)),
         [mgr_list_modules_cmd])
    | none =>
      (Except.error (RadosError.Error
        ("Unable to parse mgr ls output: " ++ rustDebugPair result)),
       [mgr_list_modules_cmd])

/-- Descriptor of `mgr_list_services`. -/
def mgr_list_services_cmd : Json :=
  Json.obj [("prefix", Json.str "mgr services")]

/-- `pub fn mgr_list_services` of `cmd.rs`. -/
def mgr_list_services (T : Transport)
    (dec : String → RadosResult (List String)) :
    RadosResult (List String) × List Json :=
  match T mgr_list_services_cmd with
  | Except.error e => (Except.error e, [mgr_list_services_cmd])
  | Except.ok result =>
    match result.1 with
    | some return_data =>
      match firstLine? return_data with
      | some res => (dec res, [mgr_list_services_cmd])
      | none =>
        (Except.error (RadosError.Error
          ("Unable to parse mgr services: " ++ rustDebugStr return_data)),
         [mgr_list_services_cmd])
    | none =>
      (Except.error (RadosError.Error
        ("Unable to parse mgr services output: " ++ rustDebugPair result)),
       [mgr_list_services_cmd])

/-- Descriptor of `mgr_enable_module`: the `force` field is present exactly
when force is requested. -/
def mgr_enable_module_cmd (module : String) (force : Bool) : Json :=
  match force with
  | true =>
    Json.obj [("prefix", Json.str "mgr module enable"),
              ("module", Json.str module),
              ("force", Json.str "--force")]
  | false =>
    Json.obj [("prefix", Json.str "mgr module enable"),
              ("module", Json.str module)]

/-- `pub fn mgr_enable_module` of `cmd.rs`. -/
def mgr_enable_module (T : Transport) (module : String) (force : Bool)
    (simulate : Bool) : RadosResult Unit × List Json :=
  if !simulate then
    match T (mgr_enable_module_cmd module force) with
    | Except.error e => (Except.error e, [mgr_enable_module_cmd module force])
    | Except.ok _ => (Except.ok (), [mgr_enable_module_cmd module force])
  else
    (Except.ok (), [])

/-- Descriptor of `mgr_disable_module`. -/
def mgr_disable_module_cmd (module : String) : Json :=
  Json.obj [("prefix", Json.str "mgr module disable"),
            ("module", Json.str module)]

/-- `pub fn mgr_disable_module` of `cmd.rs`. -/
def mgr_disable_module (T : Transport) (module : String) (simulate : Bool) :
    RadosResult Unit × List Json :=
  if !simulate then
    match T (mgr_disable_module_cmd module) with
    | Except.error e => (Except.error e, [mgr_disable_module_cmd module])
    | Except.ok _ => (Except.ok (), [mgr_disable_module_cmd module])
  else
    (Except.ok (), [])

/-- Descriptor of `mgr_metadata`. -/
def mgr_metadata_cmd : Json :=
  Json.obj [("prefix", Json.str "mgr metadata")]

/-- `pub fn mgr_metadata` of `cmd.rs`. -/
def mgr_metadata (T : Transport) (dec : String → RadosResult MgrMetadata) :
    RadosResult MgrMetadata × List Json :=
  match T mgr_metadata_cmd with
  | Except.error e => (Except.error e, [mgr_metadata_cmd])
  | Except.ok result =>
    match result.1 with
    | some return_data =>
      match firstLine? return_data with
      | some res => (dec res, [mgr_metadata_cmd])
      | none =>
        (Except.error (RadosError.Error
          ("Unable to parse mgr metadata: " ++ rustDebugStr return_data)),
         [mgr_metadata_cmd])
    | none =>
      (Except.error (RadosError.Error
        ("Unable to parse mgr metadata output: " ++ rustDebugPair result)),
       [mgr_metadata_cmd])

/-- Descriptor of `mgr_count_metadata`. -/
def mgr_count_metadata_cmd (property : String) : Json :=
  Json.obj [("prefix", Json.str "mgr count-metadata"),
            ("name", Json.str property)]

/-- `pub fn mgr_count_metadata` of `cmd.rs`; the `HashMap<String, u64>`
result is modelled as an association list. -/
def mgr_count_metadata (T : Transport) (property : String)
    (dec : String → RadosResult (List (String × Nat))) :
    RadosResult (List (String × Nat)) × List Json :=
  match T (mgr_count_metadata_cmd property) with
  | Except.error e => (Except.error e, [mgr_count_metadata_cmd property])
  | Except.ok result =>
    match result.1 with
    | some return_data =>
      match firstLine? return_data with
      | some res => (dec res, [mgr_count_metadata_cmd property])
      | none =>
        (Except.error (RadosError.Error
          ("Unable to parse mgr count-metadata: " ++ rustDebugStr return_data)),
         [mgr_count_metadata_cmd property])
    | none =>
      (Except.error (RadosError.Error
        ("Unable to parse mgr count-metadata output: " ++ rustDebugPair result)),
       [mgr_count_metadata_cmd property])

/-- Descriptor of `mgr_versions`. -/
def mgr_versions_cmd : Json :=
  Json.obj [("prefix", Json.str "mgr versions")]

/-- `pub fn mgr_versions` of `cmd.rs`; the `HashMap<String, u64>` result is
modelled as an association list. -/
def mgr_versions (T : Transport)
    (dec : String → RadosResult (List (String × Nat))) :
    RadosResult (List (String × Nat)) × List Json :=
  match T mgr_versions_cmd with
  | Except.error e => (Except.error e, [mgr_versions_cmd])
  | Except.ok result =>
    match result.1 with
    | some return_data =>
      match firstLine? return_data with
      | some res => (dec res, [mgr_versions_cmd])
      | none =>
        (Except.error (RadosError.Error
          ("Unable to parse mgr versions: " ++ rustDebugStr return_data)),
         [mgr_versions_cmd])
    | none =>
      (Except.error (RadosError.Error
        ("Unable to parse mgr versions output: " ++ rustDebugPair result)),
       [mgr_versions_cmd])

/-- A transport double that returns the same reply to every command. -/
def replyT (r : Except RadosError (Option String × Option String)) : Transport :=
  fun _ => r

/-- A decoder double that rejects every input, standing in for a serde
decode whose outcome is irrelevant to the statement at hand. -/
def decFail {α : Type} : String → RadosResult α :=
  fun _ => Except.error (RadosError.Error "invalid json")

/-- A concrete `MonDump` response value. -/
def monDump0 : MonDump :=
  { epoch := 1, fsid := "fsid", modified := "", created := "",
    mons := [], quorum := [] }

/-- A single-line JSON text standing for the serialized `monDump0`. -/
def monDumpLine : String := "\x7b\"epoch\":1\x7d"

/-- A concrete decoder double accepting exactly `monDumpLine`. -/
def monDumpDec : String → RadosResult MonDump :=
  fun s =>
    if s = monDumpLine then Except.ok monDump0
    else Except.error (RadosError.Error "invalid json")

/-- A fallible computation settles: it is an `ok` or an `error`; nothing
else (in particular no panic) is representable. -/
def settles {α : Type} (r : Except RadosError α) : Prop :=
  (∃ v, r = Except.ok v) ∨ (∃ e, r = Except.error e)

theorem except_settles {α : Type} (r : Except RadosError α) : settles r := by
  cases r with
  | error e => exact Or.inr ⟨e, rfl⟩
  | ok v => exact Or.inl ⟨v, rfl⟩

theorem takeUntilNewline_append (l1 l2 : List Char) (h : '\n' ∉ l1) :
    takeUntilNewline (l1 ++ '\n' :: l2) = l1 := by
  induction l1 with
  | nil => simp [takeUntilNewline]
  | cons c cs ih =>
    simp only [List.mem_cons, not_or] at h
    simp [takeUntilNewline, Ne.symm h.1, ih h.2]

theorem takeUntilNewline_all (l : List Char) (h : '\n' ∉ l) :
    takeUntilNewline l = l := by
  induction l with
  | nil => rfl
  | cons c cs ih =>
    simp only [List.mem_cons, not_or] at h
    simp [takeUntilNewline, Ne.symm h.1, ih h.2]

theorem firstLine_append (l1 l2 : String) (h1 : '\n' ∉ l1.data)
    (h2 : l1.data.getLast? ≠ some '\r') :
    firstLine? (l1 ++ "\n" ++ l2) = some l1 := by
  have hd : (l1 ++ "\n" ++ l2).data = l1.data ++ '\n' :: l2.data := by
    rw [String.data_append, String.data_append, List.append_assoc]
    rfl
  unfold firstLine?
  rw [hd]
  have hne : (l1.data ++ '\n' :: l2.data).isEmpty = false := by
    cases l1.data <;> rfl
  rw [hne]
  simp only [Bool.false_eq_true, if_false]
  rw [takeUntilNewline_append l1.data l2.data h1]
  unfold stripCR
  rw [if_neg h2]

theorem firstLine_no_newline (l : String) (hn : l.data ≠ [])
    (h1 : '\n' ∉ l.data) (h2 : l.data.getLast? ≠ some '\r') :
    firstLine? l = some l := by
  have hne : l.data.isEmpty = false := by
    cases h : l.data with
    | nil => exact absurd h hn
    | cons a as => rfl
  unfold firstLine?
  rw [hne]
  simp only [Bool.false_eq_true, if_false]
  rw [takeUntilNewline_all l.data h1]
  unfold stripCR
  rw [if_neg h2]

/-- C1: every mutating operation invoked with `simulate = true` performs no
transport call (its dispatched-command list is empty) and returns its
placeholder success — `Ok(())` for the unit-returning operations and `Ok(0)`
for `osd_create`.  The command descriptor is still constructed before the
gate (a side-effect-free step in the source, visible here in each
operation's `_cmd` builder). -/
theorem c1_simulate_short_circuit :
    ∀ (T : Transport),
      (∀ osd_id, osd_out T osd_id true = (Except.ok (), [])) ∧
      (∀ osd_id, osd_crush_remove T osd_id true = (Except.ok (), [])) ∧
      (∀ pool key value, osd_pool_set T pool key value true = (Except.ok (), [])) ∧
      (∀ key force, osd_set T key force true = (Except.ok (), [])) ∧
      (∀ key, osd_unset T key true = (Except.ok (), [])) ∧
      (∀ osd_id, auth_del T osd_id true = (Except.ok (), [])) ∧
      (∀ osd_id, osd_rm T osd_id true = (Except.ok (), [])) ∧
      (∀ id, osd_create T id true = (Except.ok 0, [])) ∧
      (∀ mgr_id, mgr_auth_add T mgr_id true = (Except.ok (), [])) ∧
      (∀ osd_id, osd_auth_add T osd_id true = (Except.ok (), [])) ∧
      (∀ osd_id weight host,
        osd_crush_add T osd_id weight host true = (Except.ok (), [])) ∧
      (∀ mgr_id, mgr_fail T mgr_id true = (Except.ok (), [])) ∧
      (∀ module force, mgr_enable_module T module force true = (Except.ok (), [])) ∧
      (∀ module, mgr_disable_module T module true = (Except.ok (), [])) :=
  fun _ =>
    ⟨fun _ => rfl, fun _ => rfl, fun _ _ _ => rfl, fun _ _ => rfl,
     fun _ => rfl, fun _ => rfl, fun _ => rfl, fun _ => rfl, fun _ => rfl,
     fun _ => rfl, fun _ _ _ => rfl, fun _ => rfl, fun _ _ => rfl,
     fun _ => rfl⟩

/-- C3: for each wire-vocabulary enumeration, the variant-to-token map is
total (every variant is listed), injective (the token list has no
duplicates), round-trips through the deserializer, and the Display,
AsRef and serde tokens agree character for character — including the
hyphen-bearing tokens. -/
theorem c3_wire_vocab_round_trip :
    ((∀ v : OsdOption, v ∈ allOsdOptions) ∧
      (allOsdOptions.map OsdOption.serdeToken).Nodup ∧
      (∀ v : OsdOption, OsdOption.fromToken (OsdOption.serdeToken v) = some v) ∧
      (∀ v : OsdOption, OsdOption.displayFmt v = OsdOption.asRefStr v ∧
        OsdOption.asRefStr v = OsdOption.serdeToken v)) ∧
    ((∀ v : PoolOption, v ∈ allPoolOptions) ∧
      (allPoolOptions.map PoolOption.serdeToken).Nodup ∧
      (∀ v : PoolOption, PoolOption.fromToken (PoolOption.serdeToken v) = some v) ∧
      (∀ v : PoolOption, PoolOption.displayFmt v = PoolOption.asRefStr v ∧
        PoolOption.asRefStr v = PoolOption.serdeToken v)) ∧
    ((∀ v : HealthStatus, v ∈ allHealthStatuses) ∧
      (allHealthStatuses.map HealthStatus.serdeToken).Nodup ∧
      (∀ v : HealthStatus, HealthStatus.fromToken (HealthStatus.serdeToken v) = some v) ∧
      (∀ v : HealthStatus, HealthStatus.displayFmt v = HealthStatus.asRefStr v ∧
        HealthStatus.asRefStr v = HealthStatus.serdeToken v)) ∧
    ((∀ v : RoundStatus, v ∈ allRoundStatuses) ∧
      (allRoundStatuses.map RoundStatus.serdeToken).Nodup ∧
      (∀ v : RoundStatus, RoundStatus.fromToken (RoundStatus.serdeToken v) = some v) ∧
      (∀ v : RoundStatus, RoundStatus.displayFmt v = RoundStatus.asRefStr v ∧
        RoundStatus.asRefStr v = RoundStatus.serdeToken v)) ∧
    OsdOption.serdeToken OsdOption.NoDeepScrub = "nodeep-scrub" ∧
    PoolOption.serdeToken PoolOption.NoDeepScrub = "nodeep-scrub" ∧
    RoundStatus.serdeToken RoundStatus.OnGoing = "on-going" := by
  refine ⟨⟨?_, ?_, ?_, ?_⟩, ⟨?_, ?_, ?_, ?_⟩, ⟨?_, ?_, ?_, ?_⟩,
    ⟨?_, ?_, ?_, ?_⟩, rfl, rfl, rfl⟩
  · intro v; cases v <;> decide
  · decide
  · intro v; cases v <;> rfl
  · intro v; cases v <;> exact ⟨rfl, rfl⟩
  · intro v; cases v <;> decide
  · decide
  · intro v; cases v <;> rfl
  · intro v; cases v <;> exact ⟨rfl, rfl⟩
  · intro v; cases v <;> decide
  · decide
  · intro v; cases v <;> rfl
  · intro v; cases v <;> exact ⟨rfl, rfl⟩
  · intro v; cases v <;> decide
  · decide
  · intro v; cases v <;> rfl
  · intro v; cases v <;> exact ⟨rfl, rfl⟩

/-- C7: the descriptors of `osd_out` and `osd_rm` carry the id as the
decimal string inside a single-element `ids` list — never a bare integer —
and with `simulate = false` exactly that descriptor is dispatched. -/
theorem c7_ids_single_decimal_string :
    ∀ osd_id : Nat,
      lookupField (osd_out_cmd osd_id) "ids"
        = some (Json.arr [Json.str (toString osd_id)]) ∧
      lookupField (osd_rm_cmd osd_id) "ids"
        = some (Json.arr [Json.str (toString osd_id)]) ∧
      (∀ T : Transport, (osd_out T osd_id false).2 = [osd_out_cmd osd_id]) ∧
      (∀ T : Transport, (osd_rm T osd_id false).2 = [osd_rm_cmd osd_id]) := by
  intro osd_id
  refine ⟨rfl, rfl, ?_, ?_⟩
  · intro T
    cases h : T (osd_out_cmd osd_id) <;> simp [osd_out, h]
  · intro T
    cases h : T (osd_rm_cmd osd_id) <;> simp [osd_rm, h]

/-- C8: without force, the descriptors of `osd_set` and `mgr_enable_module`
carry no force-related field at all; with force, `osd_set` carries
`sure = "--yes-i-really-mean-it"` and `mgr_enable_module` carries
`force = "--force"`. -/
theorem c8_force_field_presence :
    (∀ key : OsdOption,
      hasKey (osd_set_cmd key false) "sure" = false ∧
      hasKey (osd_set_cmd key false) "force" = false ∧
      lookupField (osd_set_cmd key true) "sure"
        = some (Json.str "--yes-i-really-mean-it")) ∧
    (∀ module : String,
      hasKey (mgr_enable_module_cmd module false) "force" = false ∧
      hasKey (mgr_enable_module_cmd module false) "sure" = false ∧
      lookupField (mgr_enable_module_cmd module true) "force"
        = some (Json.str "--force")) :=
  ⟨fun _ => ⟨rfl, rfl, rfl⟩, fun _ => ⟨rfl, rfl, rfl⟩⟩

/-- C9: every operation handles every transport outcome — each of the four
presence combinations of the dual text channel, and the transport-level
failure — by returning `ok` or `error`; nothing else (in particular no
panic) is representable. -/
theorem c9_dual_channel_totality :
    ∀ (r : Except RadosError (Option String × Option String)),
      (∀ dec, settles (cluster_health (replyT r) dec).1) ∧
      (∀ pool choice, settles (osd_pool_get (replyT r) pool choice).1) ∧
      (∀ dec, settles (osd_tree (replyT r) dec).1) ∧
      settles (status (replyT r)).1 ∧
      (∀ dec, settles (mon_dump (replyT r) dec).1) ∧
      (∀ dec, settles (mon_quorum (replyT r) dec).1) ∧
      (∀ dec, settles (mon_status (replyT r) dec).1) ∧
      settles (version (replyT r)).1 ∧
      (∀ pool, settles (osd_pool_quota_get (replyT r) pool).1) ∧
      (∀ client_type id, settles (auth_get_key (replyT r) client_type id).1) ∧
      (∀ dec, settles (mgr_dump (replyT r) dec).1) ∧
      (∀ dec, settles (mgr_list_modules (replyT r) dec).1) ∧
      (∀ dec, settles (mgr_list_services (replyT r) dec).1) ∧
      (∀ dec, settles (mgr_metadata (replyT r) dec).1) ∧
      (∀ property dec, settles (mgr_count_metadata (replyT r) property dec).1) ∧
      (∀ dec, settles (mgr_versions (replyT r) dec).1) ∧
      (∀ osd_id b, settles (osd_out (replyT r) osd_id b).1) ∧
      (∀ osd_id b, settles (osd_crush_remove (replyT r) osd_id b).1) ∧
      (∀ pool key value b, settles (osd_pool_set (replyT r) pool key value b).1) ∧
      (∀ key force b, settles (osd_set (replyT r) key force b).1) ∧
      (∀ key b, settles (osd_unset (replyT r) key b).1) ∧
      (∀ osd_id b, settles (auth_del (replyT r) osd_id b).1) ∧
      (∀ osd_id b, settles (osd_rm (replyT r) osd_id b).1) ∧
      (∀ id b, settles (osd_create (replyT r) id b).1) ∧
      (∀ mgr_id b, settles (mgr_auth_add (replyT r) mgr_id b).1) ∧
      (∀ osd_id b, settles (osd_auth_add (replyT r) osd_id b).1) ∧
      (∀ osd_id weight host b,
        settles (osd_crush_add (replyT r) osd_id weight host b).1) ∧
      (∀ mgr_id b, settles (mgr_fail (replyT r) mgr_id b).1) ∧
      (∀ module force b, settles (mgr_enable_module (replyT r) module force b).1) ∧
      (∀ module b, settles (mgr_disable_module (replyT r) module b).1) :=
  fun _ =>
    ⟨fun _ => except_settles _, fun _ _ => except_settles _,
     fun _ => except_settles _, except_settles _, fun _ => except_settles _,
     fun _ => except_settles _, fun _ => except_settles _, except_settles _,
     fun _ => except_settles _, fun _ _ => except_settles _,
     fun _ => except_settles _, fun _ => except_settles _,
     fun _ => except_settles _, fun _ => except_settles _,
     fun _ _ => except_settles _, fun _ => except_settles _,
     fun _ _ => except_settles _, fun _ _ => except_settles _,
     fun _ _ _ _ => except_settles _, fun _ _ _ => except_settles _,
     fun _ _ => except_settles _, fun _ _ => except_settles _,
     fun _ _ => except_settles _, fun _ _ => except_settles _,
     fun _ _ => except_settles _, fun _ _ => except_settles _,
     fun _ _ _ _ => except_settles _, fun _ _ => except_settles _,
     fun _ _ _ => except_settles _, fun _ _ => except_settles _⟩

theorem firstLine_empty : firstLine? "" = none := rfl

/-- C2 counterexample: `osd_tree` with an absent primary channel and the
diagnostic text "permission denied" on the secondary channel returns its
fixed no-response message, not the diagnostic text — refuting the claim
that every reply-parsing operation surfaces the secondary channel's text
verbatim. -/
theorem c2_counterexample :
    (osd_tree (replyT (Except.ok (none, some "permission denied"))) decFail).1
      = Except.error (RadosError.Error "No response from ceph for osd tree") ∧
    RadosError.Error "No response from ceph for osd tree"
      ≠ RadosError.Error "permission denied" :=
  ⟨rfl, by decide⟩

/-- C2 amended: when the transport succeeds with the primary channel absent,
every reply-parsing operation returns an error, but only `cluster_health`
and `osd_pool_get` surface the secondary channel's diagnostic text
(falling back to a fixed operation-named no-response message when it too is
absent); `osd_tree`, `status`, `mon_dump`, `mon_quorum`, `mon_status`,
`version` and `osd_pool_quota_get` return their fixed operation-named
no-response message regardless of the secondary channel; the remaining
operations return an operation-named unable-to-parse message echoing the
debug rendering of the whole reply pair. -/
theorem c2_primary_absent_behaviour :
    ∀ (T : Transport) (r1 : Option String),
      (∀ dec, T cluster_health_cmd = Except.ok (none, r1) →
        (cluster_health T dec).1 = Except.error (RadosError.Error
          (r1.getD "No response from ceph for health"))) ∧
      (∀ pool choice, T (osd_pool_get_cmd pool choice) = Except.ok (none, r1) →
        (osd_pool_get T pool choice).1 = Except.error (RadosError.Error
          (r1.getD "No response from ceph for osd pool get"))) ∧
      (∀ dec, T osd_tree_cmd = Except.ok (none, r1) →
        (osd_tree T dec).1 = Except.error (RadosError.Error
          "No response from ceph for osd tree")) ∧
      (T status_cmd = Except.ok (none, r1) →
        (status T).1 = Except.error (RadosError.Error
          "No response from ceph for status")) ∧
      (∀ dec, T mon_dump_cmd = Except.ok (none, r1) →
        (mon_dump T dec).1 = Except.error (RadosError.Error
          "No response from ceph for mon dump")) ∧
      (∀ dec, T mon_quorum_cmd = Except.ok (none, r1) →
        (mon_quorum T dec).1 = Except.error (RadosError.Error
          "No response from ceph for quorum_status")) ∧
      (∀ dec, T mon_status_cmd = Except.ok (none, r1) →
        (mon_status T dec).1 = Except.error (RadosError.Error
          "No response from ceph for mon_status")) ∧
      (T version_cmd = Except.ok (none, r1) →
        (version T).1 = Except.error (RadosError.Error
          "No response from ceph for version")) ∧
      (∀ pool, T (osd_pool_quota_get_cmd pool) = Except.ok (none, r1) →
        (osd_pool_quota_get T pool).1 = Except.error (RadosError.Error
          "No response from ceph for osd pool quota-get")) ∧
      (∀ id, T (osd_create_cmd id) = Except.ok (none, r1) →
        (osd_create T id false).1 = Except.error (RadosError.Error
          ("Unable to parse osd create output: " ++ rustDebugPair (none, r1)))) ∧
      (∀ client_type id, T (auth_get_key_cmd client_type id) = Except.ok (none, r1) →
        (auth_get_key T client_type id).1 = Except.error (RadosError.Error
          ("Unable to parse auth get-key output: " ++ rustDebugPair (none, r1)))) ∧
      (∀ dec, T mgr_dump_cmd = Except.ok (none, r1) →
        (mgr_dump T dec).1 = Except.error (RadosError.Error
          ("Unable to parse mgr dump output: " ++ rustDebugPair (none, r1)))) ∧
      (∀ dec, T mgr_list_modules_cmd = Except.ok (none, r1) →
        (mgr_list_modules T dec).1 = Except.error (RadosError.Error
          ("Unable to parse mgr ls output: " ++ rustDebugPair (none, r1)))) ∧
      (∀ dec, T mgr_list_services_cmd = Except.ok (none, r1) →
        (mgr_list_services T dec).1 = Except.error (RadosError.Error
          ("Unable to parse mgr services output: " ++ rustDebugPair (none, r1)))) ∧
      (∀ dec, T mgr_metadata_cmd = Except.ok (none, r1) →
        (mgr_metadata T dec).1 = Except.error (RadosError.Error
          ("Unable to parse mgr metadata output: " ++ rustDebugPair (none, r1)))) ∧
      (∀ property dec, T (mgr_count_metadata_cmd property) = Except.ok (none, r1) →
        (mgr_count_metadata T property dec).1 = Except.error (RadosError.Error
          ("Unable to parse mgr count-metadata output: " ++ rustDebugPair (none, r1)))) ∧
      (∀ dec, T mgr_versions_cmd = Except.ok (none, r1) →
        (mgr_versions T dec).1 = Except.error (RadosError.Error
          ("Unable to parse mgr versions output: " ++ rustDebugPair (none, r1)))) := by
  intro T r1
  refine ⟨?_, ?_, ?_, ?_, ?_, ?_, ?_, ?_, ?_, ?_, ?_, ?_, ?_, ?_, ?_, ?_, ?_⟩
  · intro dec h; simp [cluster_health, h]
  · intro pool choice h; simp [osd_pool_get, h]
  · intro dec h; simp [osd_tree, h]
  · intro h; simp [status, h]
  · intro dec h; simp [mon_dump, h]
  · intro dec h; simp [mon_quorum, h]
  · intro dec h; simp [mon_status, h]
  · intro h; simp [version, h]
  · intro pool h; simp [osd_pool_quota_get, h]
  · intro id h; simp [osd_create, h]
  · intro client_type id h; simp [auth_get_key, h]
  · intro dec h; simp [mgr_dump, h]
  · intro dec h; simp [mgr_list_modules, h]
  · intro dec h; simp [mgr_list_services, h]
  · intro dec h; simp [mgr_metadata, h]
  · intro property dec h; simp [mgr_count_metadata, h]
  · intro dec h; simp [mgr_versions, h]

/-- C2 witness: `cluster_health` does surface the diagnostic text when the
primary channel is absent. -/
theorem c2_primary_absent_witness :
    (cluster_health (replyT (Except.ok (none, some "permission denied")))
        decFail).1
      = Except.error (RadosError.Error "permission denied") := by
  have h := (c2_primary_absent_behaviour
      (replyT (Except.ok (none, some "permission denied")))
      (some "permission denied")).1 decFail rfl
  rw [h]
  rfl

/-- C4: whenever the primary text consists of a first line followed by a
newline and arbitrary further text, every reply-parsing operation decodes
the first line only: the result is exactly what decoding the first line
gives, whatever the remaining text holds. -/
theorem c4_first_line_only :
    ∀ (T : Transport) (l1 l2 : String) (r1 : Option String),
      '\n' ∉ l1.data → l1.data.getLast? ≠ some '\r' →
      ((∀ dec, T cluster_health_cmd = Except.ok (some (l1 ++ "\n" ++ l2), r1) →
          (cluster_health T dec).1 = dec l1) ∧
       (∀ pool choice,
          T (osd_pool_get_cmd pool choice) = Except.ok (some (l1 ++ "\n" ++ l2), r1) →
          (osd_pool_get T pool choice).1 = Except.ok l1) ∧
       (∀ dec, T osd_tree_cmd = Except.ok (some (l1 ++ "\n" ++ l2), r1) →
          (osd_tree T dec).1 = dec l1) ∧
       (T status_cmd = Except.ok (some (l1 ++ "\n" ++ l2), r1) →
          (status T).1 = Except.ok l1) ∧
       (∀ dec, T mon_dump_cmd = Except.ok (some (l1 ++ "\n" ++ l2), r1) →
          (mon_dump T dec).1 = dec l1) ∧
       (∀ dec, T mon_quorum_cmd = Except.ok (some (l1 ++ "\n" ++ l2), r1) →
          (mon_quorum T dec).1 = dec l1) ∧
       (∀ dec, T mon_status_cmd = Except.ok (some (l1 ++ "\n" ++ l2), r1) →
          (mon_status T dec).1 = dec l1) ∧
       (T version_cmd = Except.ok (some (l1 ++ "\n" ++ l2), r1) →
          (version T).1 = Except.ok l1) ∧
       (∀ pool, T (osd_pool_quota_get_cmd pool) = Except.ok (some (l1 ++ "\n" ++ l2), r1) →
          (osd_pool_quota_get T pool).1 = u64_from_str l1) ∧
       (∀ id, T (osd_create_cmd id) = Except.ok (some (l1 ++ "\n" ++ l2), r1) →
          (osd_create T id false).1 = u64_from_str l1) ∧
       (∀ client_type id,
          T (auth_get_key_cmd client_type id) = Except.ok (some (l1 ++ "\n" ++ l2), r1) →
          (auth_get_key T client_type id).1 = Except.ok l1) ∧
       (∀ dec, T mgr_dump_cmd = Except.ok (some (l1 ++ "\n" ++ l2), r1) →
          (mgr_dump T dec).1 = dec l1) ∧
       (∀ dec, T mgr_list_modules_cmd = Except.ok (some (l1 ++ "\n" ++ l2), r1) →
          (mgr_list_modules T dec).1 = dec l1) ∧
       (∀ dec, T mgr_list_services_cmd = Except.ok (some (l1 ++ "\n" ++ l2), r1) →
          (mgr_list_services T dec).1 = dec l1) ∧
       (∀ dec, T mgr_metadata_cmd = Except.ok (some (l1 ++ "\n" ++ l2), r1) →
          (mgr_metadata T dec).1 = dec l1) ∧
       (∀ property dec,
          T (mgr_count_metadata_cmd property) = Except.ok (some (l1 ++ "\n" ++ l2), r1) →
          (mgr_count_metadata T property dec).1 = dec l1) ∧
       (∀ dec, T mgr_versions_cmd = Except.ok (some (l1 ++ "\n" ++ l2), r1) →
          (mgr_versions T dec).1 = dec l1)) := by
  intro T l1 l2 r1 h1 h2
  have hfl := firstLine_append l1 l2 h1 h2
  refine ⟨?_, ?_, ?_, ?_, ?_, ?_, ?_, ?_, ?_, ?_, ?_, ?_, ?_, ?_, ?_, ?_, ?_⟩
  · intro dec h; simp [cluster_health, h, hfl]
  · intro pool choice h; simp [osd_pool_get, h, hfl]
  · intro dec h; simp [osd_tree, h, hfl]
  · intro h; simp [status, h, hfl]
  · intro dec h; simp [mon_dump, h, hfl]
  · intro dec h; simp [mon_quorum, h, hfl]
  · intro dec h; simp [mon_status, h, hfl]
  · intro h; simp [version, h, hfl]
  · intro pool h; simp [osd_pool_quota_get, h, hfl]
  · intro id h; simp [osd_create, h, hfl]
  · intro client_type id h; simp [auth_get_key, h, hfl]
  · intro dec h; simp [mgr_dump, h, hfl]
  · intro dec h; simp [mgr_list_modules, h, hfl]
  · intro dec h; simp [mgr_list_services, h, hfl]
  · intro dec h; simp [mgr_metadata, h, hfl]
  · intro property dec h; simp [mgr_count_metadata, h, hfl]
  · intro dec h; simp [mgr_versions, h, hfl]

/-- C4 witness: a two-line primary text whose first line is the valid
serialized form of a `MonDump` and whose second line is garbage makes
`mon_dump` succeed with the decoded value. -/
theorem c4_first_line_only_witness :
    (mon_dump (replyT (Except.ok (some (monDumpLine ++ "\n" ++ "garbage"), none)))
        monDumpDec).1
      = Except.ok monDump0 := by
  have h := ((c4_first_line_only
      (replyT (Except.ok (some (monDumpLine ++ "\n" ++ "garbage"), none)))
      monDumpLine "garbage" none (by decide) (by decide)).2.2.2.2.1)
      monDumpDec rfl
  rw [h]
  rfl

/-- C5: when the transport succeeds and the primary text is present but
empty (zero lines), every reply-parsing operation returns a
malformed-response error naming the operation and echoing the debug
rendering of the raw (empty) primary text. -/
theorem c5_empty_primary_malformed :
    ∀ (T : Transport) (r1 : Option String),
      (∀ dec, T cluster_health_cmd = Except.ok (some "", r1) →
        (cluster_health T dec).1 = Except.error (RadosError.Error
          ("Unable to parse health output: " ++ rustDebugStr ""))) ∧
      (∀ pool choice, T (osd_pool_get_cmd pool choice) = Except.ok (some "", r1) →
        (osd_pool_get T pool choice).1 = Except.error (RadosError.Error
          ("Unable to parse osd pool get output: " ++ rustDebugStr ""))) ∧
      (∀ dec, T osd_tree_cmd = Except.ok (some "", r1) →
        (osd_tree T dec).1 = Except.error (RadosError.Error
          ("Unable to parse osd tree output: " ++ rustDebugStr ""))) ∧
      (T status_cmd = Except.ok (some "", r1) →
        (status T).1 = Except.error (RadosError.Error
          ("Unable to parse status output: " ++ rustDebugStr ""))) ∧
      (∀ dec, T mon_dump_cmd = Except.ok (some "", r1) →
        (mon_dump T dec).1 = Except.error (RadosError.Error
          ("Unable to parse mon dump output: " ++ rustDebugStr ""))) ∧
      (∀ dec, T mon_quorum_cmd = Except.ok (some "", r1) →
        (mon_quorum T dec).1 = Except.error (RadosError.Error
          ("Unable to parse quorum_status output: " ++ rustDebugStr ""))) ∧
      (∀ dec, T mon_status_cmd = Except.ok (some "", r1) →
        (mon_status T dec).1 = Except.error (RadosError.Error
          ("Unable to parse mon_status output: " ++ rustDebugStr ""))) ∧
      (T version_cmd = Except.ok (some "", r1) →
        (version T).1 = Except.error (RadosError.Error
          ("Unable to parse version output: " ++ rustDebugStr ""))) ∧
      (∀ pool, T (osd_pool_quota_get_cmd pool) = Except.ok (some "", r1) →
        (osd_pool_quota_get T pool).1 = Except.error (RadosError.Error
          ("Unable to parse osd pool quota-get output: " ++ rustDebugStr ""))) ∧
      (∀ id, T (osd_create_cmd id) = Except.ok (some "", r1) →
        (osd_create T id false).1 = Except.error (RadosError.Error
          ("Unable to parse osd create output: " ++ rustDebugStr ""))) ∧
      (∀ client_type id, T (auth_get_key_cmd client_type id) = Except.ok (some "", r1) →
        (auth_get_key T client_type id).1 = Except.error (RadosError.Error
          ("Unable to parse auth get-key: " ++ rustDebugStr ""))) ∧
      (∀ dec, T mgr_dump_cmd = Except.ok (some "", r1) →
        (mgr_dump T dec).1 = Except.error (RadosError.Error
          ("Unable to parse mgr dump: " ++ rustDebugStr ""))) ∧
      (∀ dec, T mgr_list_modules_cmd = Except.ok (some "", r1) →
        (mgr_list_modules T dec).1 = Except.error (RadosError.Error
          ("Unable to parse mgr module ls: " ++ rustDebugStr ""))) ∧
      (∀ dec, T mgr_list_services_cmd = Except.ok (some "", r1) →
        (mgr_list_services T dec).1 = Except.error (RadosError.Error
          ("Unable to parse mgr services: " ++ rustDebugStr ""))) ∧
      (∀ dec, T mgr_metadata_cmd = Except.ok (some "", r1) →
        (mgr_metadata T dec).1 = Except.error (RadosError.Error
          ("Unable to parse mgr metadata: " ++ rustDebugStr ""))) ∧
      (∀ property dec, T (mgr_count_metadata_cmd property) = Except.ok (some "", r1) →
        (mgr_count_metadata T property dec).1 = Except.error (RadosError.Error
          ("Unable to parse mgr count-metadata: " ++ rustDebugStr ""))) ∧
      (∀ dec, T mgr_versions_cmd = Except.ok (some "", r1) →
        (mgr_versions T dec).1 = Except.error (RadosError.Error
          ("Unable to parse mgr versions: " ++ rustDebugStr ""))) := by
  intro T r1
  refine ⟨?_, ?_, ?_, ?_, ?_, ?_, ?_, ?_, ?_, ?_, ?_, ?_, ?_, ?_, ?_, ?_, ?_⟩
  · intro dec h; simp [cluster_health, h, firstLine_empty]
  · intro pool choice h; simp [osd_pool_get, h, firstLine_empty]
  · intro dec h; simp [osd_tree, h, firstLine_empty]
  · intro h; simp [status, h, firstLine_empty]
  · intro dec h; simp [mon_dump, h, firstLine_empty]
  · intro dec h; simp [mon_quorum, h, firstLine_empty]
  · intro dec h; simp [mon_status, h, firstLine_empty]
  · intro h; simp [version, h, firstLine_empty]
  · intro pool h; simp [osd_pool_quota_get, h, firstLine_empty]
  · intro id h; simp [osd_create, h, firstLine_empty]
  · intro client_type id h; simp [auth_get_key, h, firstLine_empty]
  · intro dec h; simp [mgr_dump, h, firstLine_empty]
  · intro dec h; simp [mgr_list_modules, h, firstLine_empty]
  · intro dec h; simp [mgr_list_services, h, firstLine_empty]
  · intro dec h; simp [mgr_metadata, h, firstLine_empty]
  · intro property dec h; simp [mgr_count_metadata, h, firstLine_empty]
  · intro dec h; simp [mgr_versions, h, firstLine_empty]

/-- C5 witness: `cluster_health` on an empty primary text yields the
operation-named malformed-response error echoing the quoted empty text. -/
theorem c5_empty_primary_malformed_witness :
    (cluster_health (replyT (Except.ok (some "", none))) decFail).1
      = Except.error (RadosError.Error
          ("Unable to parse health output: " ++ rustDebugStr "")) := by
  have h := (c5_empty_primary_malformed
      (replyT (Except.ok (some "", none))) none).1 decFail rfl
  exact h

/-- C6: for the numeric-result operations (`osd_pool_quota_get`, and
`osd_create` with `simulate = false`), the result is the unsigned-integer
parse of the first reply line: the decimal line "42" yields `Ok 42`, and a
first line that parses as no unsigned integer yields an error. -/
theorem c6_numeric_first_line :
    ∀ (T : Transport) (r1 : Option String),
      (∀ pool p l, T (osd_pool_quota_get_cmd pool) = Except.ok (some p, r1) →
        firstLine? p = some l →
        (osd_pool_quota_get T pool).1 = u64_from_str l) ∧
      (∀ id p l, T (osd_create_cmd id) = Except.ok (some p, r1) →
        firstLine? p = some l →
        (osd_create T id false).1 = u64_from_str l) ∧
      u64_from_str "42" = Except.ok 42 ∧
      (∀ pool p l, T (osd_pool_quota_get_cmd pool) = Except.ok (some p, r1) →
        firstLine? p = some l →
        (∀ n, u64_from_str l ≠ Except.ok n) →
        ∃ e, (osd_pool_quota_get T pool).1 = Except.error e) := by
  intro T r1
  have key : ∀ pool p l, T (osd_pool_quota_get_cmd pool) = Except.ok (some p, r1) →
      firstLine? p = some l →
      (osd_pool_quota_get T pool).1 = u64_from_str l := by
    intro pool p l h hl
    simp [osd_pool_quota_get, h, hl]
  refine ⟨key, ?_, rfl, ?_⟩
  · intro id p l h hl
    simp [osd_create, h, hl]
  · intro pool p l h hl hne
    rw [key pool p l h hl]
    cases hu : u64_from_str l with
    | error e => exact ⟨e, rfl⟩
    | ok n => exact absurd hu (hne n)

/-- C6 witness: a "42" reply line yields `Ok 42` from `osd_pool_quota_get`,
an unparseable line yields an error from `osd_create`. -/
theorem c6_numeric_first_line_witness :
    (osd_pool_quota_get (replyT (Except.ok (some "42", none))) "rbd").1
      = Except.ok 42 ∧
    (∃ e, (osd_create (replyT (Except.ok (some "abc", none))) none false).1
      = Except.error e) := by
  constructor
  · have h := (c6_numeric_first_line
        (replyT (Except.ok (some "42", none))) none).1 "rbd" "42" "42"
        rfl (by decide)
    rw [h]
    rfl
  · have h := (c6_numeric_first_line
        (replyT (Except.ok (some "abc", none))) none).2.1 none "abc" "abc"
        rfl (by decide)
    rw [h]
    exact ⟨RadosError.ParseIntError "abc", rfl⟩

/-- C10: every unit-returning mutating operation invoked with
`simulate = false` returns `Ok(())` whenever the transport call succeeds —
whatever the two text channels hold, which are never inspected — and
propagates the transport error otherwise. -/
theorem c10_unit_mutating_passthrough :
    ∀ (T : Transport),
      (∀ osd_id r0 r1, T (osd_out_cmd osd_id) = Except.ok (r0, r1) →
        osd_out T osd_id false = (Except.ok (), [osd_out_cmd osd_id])) ∧
      (∀ osd_id e, T (osd_out_cmd osd_id) = Except.error e →
        osd_out T osd_id false = (Except.error e, [osd_out_cmd osd_id])) ∧
      (∀ osd_id r0 r1, T (osd_crush_remove_cmd osd_id) = Except.ok (r0, r1) →
        osd_crush_remove T osd_id false = (Except.ok (), [osd_crush_remove_cmd osd_id])) ∧
      (∀ osd_id e, T (osd_crush_remove_cmd osd_id) = Except.error e →
        osd_crush_remove T osd_id false = (Except.error e, [osd_crush_remove_cmd osd_id])) ∧
      (∀ pool key value r0 r1, T (osd_pool_set_cmd pool key value) = Except.ok (r0, r1) →
        osd_pool_set T pool key value false = (Except.ok (), [osd_pool_set_cmd pool key value])) ∧
      (∀ pool key value e, T (osd_pool_set_cmd pool key value) = Except.error e →
        osd_pool_set T pool key value false = (Except.error e, [osd_pool_set_cmd pool key value])) ∧
      (∀ key force r0 r1, T (osd_set_cmd key force) = Except.ok (r0, r1) →
        osd_set T key force false = (Except.ok (), [osd_set_cmd key force])) ∧
      (∀ key force e, T (osd_set_cmd key force) = Except.error e →
        osd_set T key force false = (Except.error e, [osd_set_cmd key force])) ∧
      (∀ key r0 r1, T (osd_unset_cmd key) = Except.ok (r0, r1) →
        osd_unset T key false = (Except.ok (), [osd_unset_cmd key])) ∧
      (∀ key e, T (osd_unset_cmd key) = Except.error e →
        osd_unset T key false = (Except.error e, [osd_unset_cmd key])) ∧
      (∀ osd_id r0 r1, T (auth_del_cmd osd_id) = Except.ok (r0, r1) →
        auth_del T osd_id false = (Except.ok (), [auth_del_cmd osd_id])) ∧
      (∀ osd_id e, T (auth_del_cmd osd_id) = Except.error e →
        auth_del T osd_id false = (Except.error e, [auth_del_cmd osd_id])) ∧
      (∀ osd_id r0 r1, T (osd_rm_cmd osd_id) = Except.ok (r0, r1) →
        osd_rm T osd_id false = (Except.ok (), [osd_rm_cmd osd_id])) ∧
      (∀ osd_id e, T (osd_rm_cmd osd_id) = Except.error e →
        osd_rm T osd_id false = (Except.error e, [osd_rm_cmd osd_id])) ∧
      (∀ mgr_id r0 r1, T (mgr_auth_add_cmd mgr_id) = Except.ok (r0, r1) →
        mgr_auth_add T mgr_id false = (Except.ok (), [mgr_auth_add_cmd mgr_id])) ∧
      (∀ mgr_id e, T (mgr_auth_add_cmd mgr_id) = Except.error e →
        mgr_auth_add T mgr_id false = (Except.error e, [mgr_auth_add_cmd mgr_id])) ∧
      (∀ osd_id r0 r1, T (osd_auth_add_cmd osd_id) = Except.ok (r0, r1) →
        osd_auth_add T osd_id false = (Except.ok (), [osd_auth_add_cmd osd_id])) ∧
      (∀ osd_id e, T (osd_auth_add_cmd osd_id) = Except.error e →
        osd_auth_add T osd_id false = (Except.error e, [osd_auth_add_cmd osd_id])) ∧
      (∀ osd_id weight host r0 r1,
        T (osd_crush_add_cmd osd_id weight host) = Except.ok (r0, r1) →
        osd_crush_add T osd_id weight host false
          = (Except.ok (), [osd_crush_add_cmd osd_id weight host])) ∧
      (∀ osd_id weight host e,
        T (osd_crush_add_cmd osd_id weight host) = Except.error e →
        osd_crush_add T osd_id weight host false
          = (Except.error e, [osd_crush_add_cmd osd_id weight host])) ∧
      (∀ mgr_id r0 r1, T (mgr_fail_cmd mgr_id) = Except.ok (r0, r1) →
        mgr_fail T mgr_id false = (Except.ok (), [mgr_fail_cmd mgr_id])) ∧
      (∀ mgr_id e, T (mgr_fail_cmd mgr_id) = Except.error e →
        mgr_fail T mgr_id false = (Except.error e, [mgr_fail_cmd mgr_id])) ∧
      (∀ module force r0 r1, T (mgr_enable_module_cmd module force) = Except.ok (r0, r1) →
        mgr_enable_module T module force false
          = (Except.ok (), [mgr_enable_module_cmd module force])) ∧
      (∀ module force e, T (mgr_enable_module_cmd module force) = Except.error e →
        mgr_enable_module T module force false
          = (Except.error e, [mgr_enable_module_cmd module force])) ∧
      (∀ module r0 r1, T (mgr_disable_module_cmd module) = Except.ok (r0, r1) →
        mgr_disable_module T module false = (Except.ok (), [mgr_disable_module_cmd module])) ∧
      (∀ module e, T (mgr_disable_module_cmd module) = Except.error e →
        mgr_disable_module T module false = (Except.error e, [mgr_disable_module_cmd module])) := by
  intro T
  refine ⟨?_, ?_, ?_, ?_, ?_, ?_, ?_, ?_, ?_, ?_, ?_, ?_, ?_, ?_, ?_, ?_,
    ?_, ?_, ?_, ?_, ?_, ?_, ?_, ?_, ?_, ?_⟩
  · intro osd_id r0 r1 h; simp [osd_out, h]
  · intro osd_id e h; simp [osd_out, h]
  · intro osd_id r0 r1 h; simp [osd_crush_remove, h]
  · intro osd_id e h; simp [osd_crush_remove, h]
  · intro pool key value r0 r1 h; simp [osd_pool_set, h]
  · intro pool key value e h; simp [osd_pool_set, h]
  · intro key force r0 r1 h; simp [osd_set, h]
  · intro key force e h; simp [osd_set, h]
  · intro key r0 r1 h; simp [osd_unset, h]
  · intro key e h; simp [osd_unset, h]
  · intro osd_id r0 r1 h; simp [auth_del, h]
  · intro osd_id e h; simp [auth_del, h]
  · intro osd_id r0 r1 h; simp [osd_rm, h]
  · intro osd_id e h; simp [osd_rm, h]
  · intro mgr_id r0 r1 h; simp [mgr_auth_add, h]
  · intro mgr_id e h; simp [mgr_auth_add, h]
  · intro osd_id r0 r1 h; simp [osd_auth_add, h]
  · intro osd_id e h; simp [osd_auth_add, h]
  · intro osd_id weight host r0 r1 h; simp [osd_crush_add, h]
  · intro osd_id weight host e h; simp [osd_crush_add, h]
  · intro mgr_id r0 r1 h; simp [mgr_fail, h]
  · intro mgr_id e h; simp [mgr_fail, h]
  · intro module force r0 r1 h; simp [mgr_enable_module, h]
  · intro module force e h; simp [mgr_enable_module, h]
  · intro module r0 r1 h; simp [mgr_disable_module, h]
  · intro module e h; simp [mgr_disable_module, h]

/-- C10 witness: with junk on both text channels, `osd_out` still returns
unit success; with a failing transport it propagates the error. -/
theorem c10_unit_mutating_passthrough_witness :
    osd_out (replyT (Except.ok (some "junk", some "more junk"))) 5 false
      = (Except.ok (), [osd_out_cmd 5]) ∧
    mgr_fail (replyT (Except.error (RadosError.Error "transport down"))) "a" false
      = (Except.error (RadosError.Error "transport down"), [mgr_fail_cmd "a"]) := by
  constructor
  · exact (c10_unit_mutating_passthrough
      (replyT (Except.ok (some "junk", some "more junk")))).1 5
      (some "junk") (some "more junk") rfl
  · exact (c10_unit_mutating_passthrough
      (replyT (Except.error (RadosError.Error "transport down")))).2.2.2.2.2.2.2.2.2.2.2.2.2.2.2.2.2.2.2.2.2.1
      "a" (RadosError.Error "transport down") rfl

end CephRust
